import Mathlib

/-!
Shallow embedding of `app.py` (a Flask content-scheduling backend) and
verification of its specification claims.

Modelling conventions:
* Python strings are Lean `String`s; Python string primitives used by the
  code (`in`, `split`, `rsplit`, `startswith`, `join`, `lower`) are modelled
  by executable Lean functions over `String.data`.
* The local filesystem is a list of paths currently present on disk (`FS`);
  `file.save` adds a path, `os.remove` erases one.
* The database is a list of `Post` rows in storage (insertion) order;
  `Post.query.all()` returns that list, `commit` on insert appends.
* Library effects that the code treats as opaque (uuid token generation,
  `datetime.fromisoformat` parsing) are parameters of the operations.
-/

namespace ApiPosts

/-- Timestamps (`datetime` values) are modelled as integers. -/
abbrev Time := Int

/-- The local filesystem: the list of file paths currently present. -/
abbrev FS := List String

/-! ### Models of the Python string primitives used by `app.py` -/

/-- Model of Python `c in s` for a single character `c`. -/
def pyMem (c : Char) (s : String) : Bool :=
  decide (c ∈ s.data)

/-- Splitting a character list on a separator character, Python style:
`splitChar c []` is `[[]]`, matching `"".split(c) == ['']`. -/
def splitChar (c : Char) : List Char → List (List Char)
  | [] => [[]]
  | x :: xs =>
    if x = c then
      [] :: splitChar c xs
    else
      match splitChar c xs with
      | [] => [[x]]
      | y :: ys => (x :: y) :: ys

/-- Model of Python `s.split(sep)` for a one-character separator. -/
def pySplit (c : Char) (s : String) : List String :=
  (splitChar c s.data).map String.mk

/-- Model of Python `s.startswith(pre)`. -/
def pyStartsWith (pre s : String) : Bool :=
  pre.data.isPrefixOf s.data

/-- Model of Python `s.lower()` for the ASCII text it is applied to. -/
def pyLower (s : String) : String :=
  String.mk (s.data.map Char.toLower)

/-- Python truthiness of an optional string: `None` and `''` are falsy. -/
def truthy : Option String → Bool
  | none => false
  | some s => s != ""

/-! ### File helpers (`app.py` lines 39-96) -/

def UPLOAD_FOLDER_POSTS : String := "uploads/posts"

def UPLOAD_FOLDER_PRODUCTS : String := "uploads/products"

def ALLOWED_EXTENSIONS : List String := ["png", "jpg", "jpeg", "gif", "mp4", "mov", "avi"]

/-- Model of `os.path.basename` for the slash-separated paths the code uses. -/
def basename (p : String) : String :=
  (pySplit '/' p).getLastD ""

/-- Model of `os.path.join` on a POSIX host for a relative second component. -/
def path_join (a b : String) : String :=
  a ++ "/" ++ b

/-- `allowed_file` from `app.py`: the filename contains a dot and the text
after the last dot, lowercased, is an allowed extension
(`filename.rsplit('.', 1)[1]` is the last component of the full split). -/
def allowed_file (filename : String) : Bool :=
  pyMem '.' filename &&
    ALLOWED_EXTENSIONS.contains (pyLower ((pySplit '.' filename).getLastD ""))

/-- Modelled from `werkzeug.utils.secure_filename` (a library call in
`save_file`): keeps only ASCII alphanumerics, dots, dashes and underscores,
removing every other character — in particular every path separator. -/
def secure_filename (s : String) : String :=
  String.mk (s.data.filter fun c => c.isAlphanum || c == '.' || c == '-' || c == '_')

/-- `save_file` from `app.py`. `filename` is `file.filename` (the
`FileStorage` object is truthy exactly when its filename is non-empty);
`token` is the fresh `uuid.uuid4().hex` value. On acceptance the file is
written at `os.path.join(upload_folder, unique_filename)` and the returned
relative path is `f"{os.path.basename(upload_folder)}/{unique_filename}"`. -/
def save_file (filename : String) (upload_folder : String) (token : String)
    (fs : FS) : Option String × FS :=
  if (filename != "") && allowed_file filename then
    let filename_base := secure_filename filename
    let unique_filename := token ++ "_" ++ filename_base
    let filepath := path_join upload_folder unique_filename
    (some (basename upload_folder ++ "/" ++ unique_filename), filepath :: fs)
  else
    (none, fs)

/-- The `full_path` computation of `delete_file`: the first path component
selects the storage root (`posts` or `products`), the second is the file
name inside it; any other category resolves to nothing. -/
def resolve_delete_path (parts : List String) : Option String :=
  if parts.getD 0 "" = "posts" then
    some (path_join UPLOAD_FOLDER_POSTS (parts.getD 1 ""))
  else if parts.getD 0 "" = "products" then
    some (path_join UPLOAD_FOLDER_PRODUCTS (parts.getD 1 ""))
  else
    none

/-- The final step of `delete_file`: `os.remove` the resolved path when it
exists, reporting whether a file was removed. -/
def delete_file_resolved (full_path : Option String) (fs : FS) : Bool × FS :=
  match full_path with
  | some fp => if fp ∈ fs then (true, fs.erase fp) else (false, fs)
  | none => (false, fs)

/-- `delete_file` from `app.py`: splits the relative path on `'/'`,
requires at least two components, resolves the category folder to a
storage root, removes the file when it exists, and reports whether a file
was removed. -/
def delete_file (filepath_relative : String) (fs : FS) : Bool × FS :=
  if filepath_relative != "" then
    if (pySplit '/' filepath_relative).length < 2 then
      (false, fs)
    else
      delete_file_resolved (resolve_delete_path (pySplit '/' filepath_relative)) fs
  else
    (false, fs)

/-! ### Basic lemmas about the string model -/

theorem pyMem_false_iff (c : Char) (s : String) :
    pyMem c s = false ↔ c ∉ s.data := by
  simp [pyMem]

theorem splitChar_of_not_mem (c : Char) (l : List Char) (h : c ∉ l) :
    splitChar c l = [l] := by
  induction l with
  | nil => rfl
  | cons x xs ih =>
    simp only [List.mem_cons, not_or] at h
    simp [splitChar, if_neg (Ne.symm h.1), ih h.2]

theorem splitChar_append_cons (c : Char) (a b : List Char) (ha : c ∉ a) :
    splitChar c (a ++ c :: b) = a :: splitChar c b := by
  induction a with
  | nil => simp [splitChar]
  | cons x xs ih =>
    simp only [List.mem_cons, not_or] at ha
    have hne : x ≠ c := Ne.symm ha.1
    simp only [List.cons_append, splitChar, if_neg hne, List.append_eq, ih ha.2]

theorem splitChar_ne_nil (c : Char) (l : List Char) : splitChar c l ≠ [] := by
  cases l with
  | nil => simp [splitChar]
  | cons x xs =>
    simp only [splitChar]
    split
    · simp
    · split
      · simp
      · simp

/-- If a path contains no `'/'`, its Python split is the singleton list. -/
theorem pySplit_no_sep (s : String) (h : pyMem '/' s = false) :
    pySplit '/' s = [s] := by
  rw [pyMem_false_iff] at h
  simp [pySplit, splitChar_of_not_mem '/' s.data h]

theorem secure_filename_no_slash (s : String) :
    '/' ∉ (secure_filename s).data := by
  intro hmem
  simp only [secure_filename, List.mem_filter] at hmem
  have := hmem.2
  simp at this

/-! ### Data model (`app.py` lines 98-129) -/

/-- The base URL used to render absolute media URLs
(`BACKEND_URL` environment variable, defaulting to `http://localhost:5000`). -/
def BACKEND_BASE_URL : String := "http://localhost:5000"

/-- The `Post` row of the database model. `status` defaults to
`'agendado'` (scheduled); `url_midia` and `data_publicacao` are nullable. -/
structure Post where
  id : Nat
  legenda : String
  tipo_midia : String
  url_midia : Option String
  plataformas : String
  data_agendamento : Time
  status : String
  data_publicacao : Option Time
deriving Repr, DecidableEq

/-- The JSON view of a post produced by `Post.to_dict`. -/
structure PostJson where
  id : Nat
  legenda : String
  tipo_midia : String
  url_midia : Option String
  plataformas : String
  data_agendamento : Time
  status : String
  data_publicacao : Option Time
deriving Repr, DecidableEq

/-- `Post.get_full_media_url` from `app.py`: absolute URL for a truthy
relative path, `None` otherwise. -/
def get_full_media_url (relative_path : String) : Option String :=
  if relative_path != "" then some (BACKEND_BASE_URL ++ "/uploads/" ++ relative_path)
  else none

/-- `Post.to_dict` from `app.py`: the media URL is resolved through
`get_full_media_url` when it is truthy and does not start with `http`,
and passed through unchanged otherwise. -/
def Post.to_dict (p : Post) : PostJson :=
  { id := p.id
    legenda := p.legenda
    tipo_midia := p.tipo_midia
    url_midia :=
      match p.url_midia with
      | some u => if (u != "") && !pyStartsWith "http" u then get_full_media_url u else some u
      | none => none
    plataformas := p.plataformas
    data_agendamento := p.data_agendamento
    status := p.status
    data_publicacao := p.data_publicacao }

/-! ### HTTP request model

A `PostRequest` is the projection of a multipart form request onto the
fields the post handlers read: `request.form.get` results are `Option`s
(`none` when the field is absent), `request.form.getlist` is a list, and
`media_file` is `some filename` exactly when a `media_file` part is in
`request.files`. -/

structure PostRequest where
  legenda : Option String
  tipo_midia : Option String
  plataformas : List String
  data_agendamento : Option String
  url_midia : Option String
  media_file : Option String
deriving Repr, DecidableEq

/-- The `not all([legenda, tipo_midia, plataformas, data_agendamento_str])`
guard shared by `create_post` and `update_post`: every required field must
be present and truthy. -/
def required_fields_ok (req : PostRequest) : Bool :=
  truthy req.legenda && truthy req.tipo_midia &&
    !req.plataformas.isEmpty && truthy req.data_agendamento

/-! ### API operations on posts (`app.py` lines 186-289) -/

/-- `GET /posts`: `Post.query.all()` renders every stored row, in storage
order — the query has no `ORDER BY` clause. -/
def get_posts (db : List Post) : List PostJson :=
  db.map Post.to_dict

/-- Outcome of `POST /posts`. `serverError` is an exception escaping
`db.session.commit()` (surfaced by Flask as a 5xx). -/
inductive CreateResult where
  | badRequest (msg : String)
  | serverError
  | created (post : Post)
deriving Repr, DecidableEq

/-- The media-resolution step of `create_post` (`app.py` lines 211-221):
a present `media_file` part with a non-empty filename is saved (a
disallowed extension aborts with a 400, modelled as the outer `none`);
when the filename is empty nothing happens and the `url_midia` form field
is not consulted; without a `media_file` part a truthy `url_midia` form
field is used. Returns the resolved media reference and the filesystem. -/
def resolve_create_media (req : PostRequest) (token : String) (fs : FS) :
    Option (Option String) × FS :=
  match req.media_file with
  | some fn =>
    if fn != "" then
      match save_file fn UPLOAD_FOLDER_POSTS token fs with
      | (some rel, fs1) => (some (some rel), fs1)
      | (none, fs1) => (none, fs1)
    else
      (some none, fs)
  | none =>
    if truthy req.url_midia then (some req.url_midia, fs) else (some none, fs)

/-- The `Post` row inserted by `create_post`: status `'agendado'`, no
published time, platforms comma-joined. -/
def mkCreatedPost (req : PostRequest) (newId : Nat) (d : Time)
    (url_midia : Option String) : Post :=
  { id := newId
    legenda := req.legenda.getD ""
    tipo_midia := req.tipo_midia.getD ""
    url_midia := url_midia
    plataformas := String.intercalate "," req.plataformas
    data_agendamento := d
    status := "agendado"
    data_publicacao := none }

/-- `create_post` from `app.py`. `fromiso` models
`datetime.fromisoformat(s.replace('Z', '+00:00'))` (`none` = `ValueError`),
`token` the fresh `uuid4().hex`, `newId` the id the database assigns,
and `commit_ok` whether `db.session.commit()` succeeds. Returns the HTTP
outcome plus the filesystem and database after the request. -/
def create_post (req : PostRequest) (fromiso : String → Option Time)
    (token : String) (newId : Nat) (commit_ok : Bool)
    (fs : FS) (db : List Post) : CreateResult × FS × List Post :=
  if !required_fields_ok req then
    (.badRequest "Dados obrigatórios faltando", fs, db)
  else
    match fromiso (req.data_agendamento.getD "") with
    | none => (.badRequest "Formato de data e hora inválido", fs, db)
    | some data_agendamento =>
      match resolve_create_media req token fs with
      | (none, fs1) => (.badRequest "Tipo de arquivo de mídia não permitido", fs1, db)
      | (some url_midia, fs1) =>
        let new_post : Post := mkCreatedPost req newId data_agendamento url_midia
        if commit_ok then (.created new_post, fs1, db ++ [new_post])
        else (.serverError, fs1, db)

/-- Outcome of `PUT /posts/<id>`. -/
inductive UpdateResult where
  | notFound
  | badRequest (msg : String)
  | ok (post : Post)
deriving Repr, DecidableEq

/-- The `existing_url_midia and not existing_url_midia.startswith('http')`
deletion guard used by `update_post` and `delete_post`. -/
def delete_local_media (u : Option String) (fs : FS) : FS :=
  if truthy u && !pyStartsWith "http" (u.getD "") then (delete_file (u.getD "") fs).2
  else fs

/-- The media-resolution step of `update_post` (`app.py` lines 252-272),
with `existing` the post's current media reference: a non-empty uploaded
file replaces the media (deleting a local existing file first; a
disallowed extension aborts with a 400, modelled as the outer `none`); a
supplied empty `url_midia` clears the media (deleting a local existing
file); a supplied new non-empty `url_midia` replaces it (deleting a
differing local existing file); otherwise the media is untouched. -/
def resolve_update_media (req : PostRequest) (existing : Option String)
    (token : String) (fs : FS) : Option (Option String) × FS :=
  if (req.media_file.getD "") != "" then
    let fs1 := delete_local_media existing fs
    match save_file (req.media_file.getD "") UPLOAD_FOLDER_POSTS token fs1 with
    | (some rel, fs2) => (some (some rel), fs2)
    | (none, fs2) => (none, fs2)
  else if req.url_midia == some "" then
    (some none, delete_local_media existing fs)
  else if truthy req.url_midia && !(req.url_midia == existing) then
    let fs1 :=
      if truthy existing && !pyStartsWith "http" (existing.getD "") &&
          !(existing == req.url_midia) then
        (delete_file (existing.getD "") fs).2
      else fs
    (some req.url_midia, fs1)
  else
    (some existing, fs)

/-- `update_post` from `app.py`: 404 when the id matches no row, 400 when a
required field is missing or the date malformed; the media reference is
resolved by `resolve_update_media`, then the remaining fields are assigned
and the row committed. -/
def update_post (id : Nat) (req : PostRequest) (fromiso : String → Option Time)
    (token : String) (fs : FS) (db : List Post) : UpdateResult × FS × List Post :=
  match db.find? (fun p => p.id == id) with
  | none => (.notFound, fs, db)
  | some post =>
    if !required_fields_ok req then
      (.badRequest "Dados obrigatórios faltando", fs, db)
    else
      match fromiso (req.data_agendamento.getD "") with
      | none => (.badRequest "Formato de data e hora inválido", fs, db)
      | some data_agendamento =>
        match resolve_update_media req post.url_midia token fs with
        | (none, fs1) => (.badRequest "Tipo de arquivo de mídia não permitido", fs1, db)
        | (some url_midia, fs1) =>
          let updated : Post :=
            { post with
              url_midia := url_midia
              legenda := req.legenda.getD ""
              tipo_midia := req.tipo_midia.getD ""
              plataformas := String.intercalate "," req.plataformas
              data_agendamento := data_agendamento }
          (.ok updated, fs1, db.map fun q => if q.id == id then updated else q)

/-- Outcome of `DELETE /posts/<id>`. -/
inductive DeleteResult where
  | notFound
  | ok
deriving Repr, DecidableEq

/-- `delete_post` from `app.py`: 404 when the id matches no row; a local
(non-`http`) media path is deleted from storage, then the row is removed. -/
def delete_post (id : Nat) (fs : FS) (db : List Post) :
    DeleteResult × FS × List Post :=
  match db.find? (fun p => p.id == id) with
  | none => (.notFound, fs, db)
  | some post =>
    let fs1 := delete_local_media post.url_midia fs
    (.ok, fs1, db.filter fun q => !(q.id == id))

/-! ### The Scheduled Publisher

The scheduler component is not part of `app.py` (this version of the
application keeps only the HTTP layer); the definitions below are modelled
from the specification of the Scheduled Publisher (§4.4), over the same
`Post` rows the HTTP layer stores. Posts are stored with status
`'agendado'` (scheduled); the terminal statuses are the spec's `published`
and `failed`. -/

/-- Modelled from the spec: the status a post carries once every platform
call of its tick succeeded. -/
def STATUS_PUBLISHED : String := "published"

/-- Modelled from the spec: the status a post carries once at least one
platform call of its tick failed. -/
def STATUS_FAILED : String := "failed"

/-- Modelled from the spec: parsing of the stored comma-joined platform
list into an ordered sequence of platform names, empty segments excluded. -/
def parse_platforms (s : String) : List String :=
  (pySplit ',' s).filter fun seg => seg != ""

/-- Modelled from the spec: processing of one due post by a tick.
`publish` is the Publish Adapter for this tick (platform name ↦ success);
outcomes are aggregated with logical AND, zero platforms count as success;
on success the status becomes `published` and the published time is set to
the current instant, on failure the status becomes `failed` and the
published time is left as it was (absent for a scheduled post). -/
def process_post (publish : String → Bool) (now : Time) (p : Post) : Post :=
  if (parse_platforms p.plataformas).all publish then
    { p with status := STATUS_PUBLISHED, data_publicacao := some now }
  else
    { p with status := STATUS_FAILED }

/-- Modelled from the spec: whether `find_due` selects a post at instant
`now` — status is still `scheduled` (stored as `'agendado'`) and the
scheduled time has passed. -/
def is_due (now : Time) (p : Post) : Bool :=
  (p.status == "agendado") && decide (p.data_agendamento ≤ now)

/-- Modelled from the spec: one tick of the Scheduled Publisher — every
due post is processed, every other row is left untouched. -/
def tick (publish : String → Bool) (now : Time) (db : List Post) : List Post :=
  db.map fun p => if is_due now p then process_post publish now p else p

/-! ### The published-time invariant -/

/-- The data-model invariant: the published time is present if and only if
the status is `published`. -/
def postInv (p : Post) : Prop :=
  p.data_publicacao.isSome ↔ p.status = STATUS_PUBLISHED

instance (p : Post) : Decidable (postInv p) := by
  unfold postInv
  infer_instance

/-! ### Helper lemmas -/

theorem string_bne_empty {s : String} (h : s.data ≠ []) : (s != "") = true := by
  refine bne_iff_ne.mpr fun hs => h ?_
  rw [hs]

theorem allowed_file_nonempty {fn : String} (h : allowed_file fn = true) :
    (fn != "") = true := by
  have hdot : pyMem '.' fn = true := (Bool.and_eq_true_iff.mp h).1
  have hmem : '.' ∈ fn.data := of_decide_eq_true hdot
  exact string_bne_empty (List.ne_nil_of_mem hmem)

/-- The acceptance guard of `save_file` coincides with `allowed_file`
(the truthiness conjunct is subsumed: an allowed filename is non-empty). -/
theorem save_file_guard_eq (filename : String) :
    ((filename != "") && allowed_file filename) = allowed_file filename := by
  cases h : allowed_file filename with
  | true => simp [allowed_file_nonempty h]
  | false => simp [h]

theorem list_erase_ne_of_mem {fp : String} {fs : List String} (h : fp ∈ fs) :
    fs.erase fp ≠ fs := by
  intro heq
  have hlen := congrArg List.length heq
  rw [List.length_erase_of_mem h] at hlen
  have hpos : 0 < fs.length := List.length_pos.mpr (List.ne_nil_of_mem h)
  omega

theorem find?_append_of_none {α} (p : α → Bool) (l1 l2 : List α)
    (h : ∀ x ∈ l1, p x = false) :
    (l1 ++ l2).find? p = l2.find? p := by
  induction l1 with
  | nil => rfl
  | cons a as ih =>
    rw [List.cons_append,
      List.find?_cons_of_neg _ (by simp [h a (List.mem_cons_self a as)]),
      ih fun x hx => h x (List.mem_cons_of_mem a hx)]

/-! ## Claim C5: acceptance condition and shape of `save_file` results -/

/-- C5: `save_file` returns `none` exactly when the filename's extension —
the lowercased text after the last dot — is not in the allowed set
{png, jpg, jpeg, gif, mp4, mov, avi} (a dotless filename having no
extension counts as not allowed); on acceptance it returns exactly
`<category>/<token>_<sanitized-name>` built with a forward-slash
separator, where the category is the basename of the upload folder
(`posts` or `products`) and the sanitized name contains no separator. -/
theorem save_file_accepts_exactly_allowed
    (filename upload_folder token : String) (fs : FS) :
    ((save_file filename upload_folder token fs).1 = none ↔
      ¬(pyMem '.' filename = true ∧
        ALLOWED_EXTENSIONS.contains (pyLower ((pySplit '.' filename).getLastD "")) = true)) ∧
    (∀ p, (save_file filename upload_folder token fs).1 = some p →
      p = basename upload_folder ++ "/" ++ (token ++ "_" ++ secure_filename filename)) ∧
    pyMem '/' (secure_filename filename) = false ∧
    basename UPLOAD_FOLDER_POSTS = "posts" ∧
    basename UPLOAD_FOLDER_PRODUCTS = "products" := by
  refine ⟨?_, ?_, ?_, rfl, rfl⟩
  · rw [save_file, save_file_guard_eq]
    cases h : allowed_file filename with
    | true =>
      rw [allowed_file] at h
      have hp := Bool.and_eq_true_iff.mp h
      exact iff_of_false (by simp) fun hc => hc ⟨hp.1, hp.2⟩
    | false =>
      have hna : ¬(pyMem '.' filename = true ∧
          ALLOWED_EXTENSIONS.contains (pyLower ((pySplit '.' filename).getLastD "")) = true) := by
        intro hc
        have hx : allowed_file filename = true := by
          rw [allowed_file, hc.1, hc.2]
          rfl
        rw [hx] at h
        exact absurd h (by simp)
      exact iff_of_true (by simp) hna
  · intro p hp
    rw [save_file, save_file_guard_eq] at hp
    cases h : allowed_file filename with
    | true =>
      rw [h] at hp
      exact (Option.some.inj hp).symm
    | false =>
      rw [h] at hp
      exact absurd hp (by simp)
  · exact decide_eq_false (secure_filename_no_slash filename)

/-- C5 witness: a concrete accepted upload. -/
theorem save_file_accepts_exactly_allowed_witness :
    "posts/tok_a.PNG" =
      basename UPLOAD_FOLDER_POSTS ++ "/" ++ ("tok" ++ "_" ++ secure_filename "a.PNG") :=
  (save_file_accepts_exactly_allowed "a.PNG" UPLOAD_FOLDER_POSTS "tok" []).2.1
    "posts/tok_a.PNG" (by decide)

/-! ## Claim C6: `delete_file` returns true exactly when a file was removed -/

/-- Case analysis on the final removal step. -/
theorem delete_file_resolved_cases (fp? : Option String) (fs : FS) :
    (∃ fp, fp ∈ fs ∧ delete_file_resolved fp? fs = (true, fs.erase fp)) ∨
      delete_file_resolved fp? fs = (false, fs) := by
  match fp? with
  | none => exact Or.inr rfl
  | some fp =>
    by_cases h : fp ∈ fs
    · exact Or.inl ⟨fp, h, by rw [delete_file_resolved, if_pos h]⟩
    · exact Or.inr (by rw [delete_file_resolved, if_neg h])

/-- Case analysis on `delete_file`: either it removed a present file and
returned `true`, or it changed nothing and returned `false`. -/
theorem delete_file_cases (path : String) (fs : FS) :
    (∃ fp, fp ∈ fs ∧ delete_file path fs = (true, fs.erase fp)) ∨
      delete_file path fs = (false, fs) := by
  by_cases h1 : (path != "") = true
  · by_cases h2 : (pySplit '/' path).length < 2
    · exact Or.inr (by rw [delete_file, if_pos h1, if_pos h2])
    · have heq : delete_file path fs =
          delete_file_resolved (resolve_delete_path (pySplit '/' path)) fs := by
        rw [delete_file, if_pos h1, if_neg h2]
      rw [heq]
      exact delete_file_resolved_cases _ fs
  · exact Or.inr (by rw [delete_file, if_neg h1])

/-- C6: `delete_file` returns `true` exactly when the filesystem actually
changed (a present file was removed), and a path with no `/` separator is
a no-op returning `false`. -/
theorem delete_file_true_iff_removed (path : String) (fs : FS) :
    ((delete_file path fs).1 = true ↔ (delete_file path fs).2 ≠ fs) ∧
    (pyMem '/' path = false → delete_file path fs = (false, fs)) := by
  constructor
  · rcases delete_file_cases path fs with ⟨fp, hmem, heq⟩ | heq
    · rw [heq]
      simpa using list_erase_ne_of_mem hmem
    · rw [heq]
      simp
  · intro hnosep
    by_cases h1 : (path != "") = true
    · rw [delete_file, if_pos h1, pySplit_no_sep path hnosep, if_pos (by simp)]
    · rw [delete_file, if_neg h1]

/-- C6 witness: a malformed path is a no-op, and a removal is detected. -/
theorem delete_file_true_iff_removed_witness :
    pyMem '/' "noslash" = false ∧
      delete_file "noslash" ["uploads/posts/x.png"] = (false, ["uploads/posts/x.png"]) :=
  ⟨rfl, (delete_file_true_iff_removed "noslash" ["uploads/posts/x.png"]).2 rfl⟩

/-! ## Claim C1: a tick drives every processed post to a terminal state -/

/-- C1: for every post processed by one Scheduled Publisher tick (a stored
post that is due: status still scheduled and scheduled time ≤ now, hence
with no published time), after the tick the post's new row is in the
tick's output, its status is exactly `published` or `failed`, its
published time is present iff its status is `published`, and it is
`published` exactly when every per-platform publish call succeeded — an
empty platform list counting as success. -/
theorem scheduler_tick_terminal_state (publish : String → Bool) (now : Time)
    (db : List Post) (p : Post) (hmem : p ∈ db) (hsch : p.status = "agendado")
    (hdue : p.data_agendamento ≤ now) (hnone : p.data_publicacao = none) :
    process_post publish now p ∈ tick publish now db ∧
    ((process_post publish now p).status = STATUS_PUBLISHED ∨
      (process_post publish now p).status = STATUS_FAILED) ∧
    ((process_post publish now p).data_publicacao.isSome ↔
      (process_post publish now p).status = STATUS_PUBLISHED) ∧
    ((process_post publish now p).status = STATUS_PUBLISHED ↔
      (parse_platforms p.plataformas).all publish = true) ∧
    (parse_platforms p.plataformas = [] →
      (process_post publish now p).status = STATUS_PUBLISHED) := by
  have hdq : is_due now p = true := by
    rw [is_due, hsch]
    simp [hdue]
  refine ⟨?_, ?_⟩
  · have hx := List.mem_map_of_mem
      (fun q => if is_due now q then process_post publish now q else q) hmem
    simpa [tick, hdq] using hx
  · cases hall : (parse_platforms p.plataformas).all publish with
    | true =>
      rw [process_post, if_pos hall]
      refine ⟨Or.inl rfl, ?_, ?_, fun _ => rfl⟩
      · simp
      · simp [hall]
    | false =>
      rw [process_post, if_neg (by simp [hall])]
      refine ⟨Or.inr rfl, ?_, ?_, ?_⟩
      · rw [show ({ p with status := STATUS_FAILED } : Post).data_publicacao
            = p.data_publicacao from rfl, hnone]
        simp [STATUS_FAILED, STATUS_PUBLISHED]
      · simp [STATUS_FAILED, STATUS_PUBLISHED]
      · intro hemp
        rw [hemp] at hall
        simp at hall

/-- Concrete due post used to witness claim C1. -/
def tickWitnessPost : Post :=
  { id := 1, legenda := "Launch", tipo_midia := "imagem", url_midia := none,
    plataformas := "instagram,whatsapp", data_agendamento := -1,
    status := "agendado", data_publicacao := none }

/-- C1 witness: a concrete due post processed by a tick whose adapter
always succeeds. -/
theorem scheduler_tick_terminal_state_witness :
    process_post (fun _ => true) 0 tickWitnessPost ∈ tick (fun _ => true) 0 [tickWitnessPost] ∧
    ((process_post (fun _ => true) 0 tickWitnessPost).status = STATUS_PUBLISHED ∨
      (process_post (fun _ => true) 0 tickWitnessPost).status = STATUS_FAILED) ∧
    ((process_post (fun _ => true) 0 tickWitnessPost).data_publicacao.isSome ↔
      (process_post (fun _ => true) 0 tickWitnessPost).status = STATUS_PUBLISHED) ∧
    ((process_post (fun _ => true) 0 tickWitnessPost).status = STATUS_PUBLISHED ↔
      (parse_platforms tickWitnessPost.plataformas).all (fun _ => true) = true) ∧
    (parse_platforms tickWitnessPost.plataformas = [] →
      (process_post (fun _ => true) 0 tickWitnessPost).status = STATUS_PUBLISHED) :=
  scheduler_tick_terminal_state (fun _ => true) 0 [tickWitnessPost] tickWitnessPost
    (List.mem_singleton.mpr rfl) rfl (by decide) rfl

/-! ## Claim C2: the API operations preserve the published-time invariant -/

/-- The database after `create_post` is either unchanged or has the new
row (status `'agendado'`, no published time) appended. -/
theorem create_post_db_cases (req : PostRequest) (fromiso : String → Option Time)
    (token : String) (newId : Nat) (commit_ok : Bool) (fs : FS) (db : List Post) :
    (create_post req fromiso token newId commit_ok fs db).2.2 = db ∨
    ∃ d url, (create_post req fromiso token newId commit_ok fs db).2.2
      = db ++ [mkCreatedPost req newId d url] := by
  rw [create_post]
  split
  · exact Or.inl rfl
  · split
    · exact Or.inl rfl
    · split
      · exact Or.inl rfl
      · split
        · exact Or.inr ⟨_, _, rfl⟩
        · exact Or.inl rfl

/-- The database after `update_post` is either unchanged or has the found
row replaced by an update that keeps its status and published time. -/
theorem update_post_db_cases (id : Nat) (req : PostRequest)
    (fromiso : String → Option Time) (token : String) (fs : FS) (db : List Post) :
    (update_post id req fromiso token fs db).2.2 = db ∨
    ∃ post d url, db.find? (fun p => p.id == id) = some post ∧
      (update_post id req fromiso token fs db).2.2 =
        db.map fun q => if q.id == id then
          { post with
            url_midia := url
            legenda := req.legenda.getD ""
            tipo_midia := req.tipo_midia.getD ""
            plataformas := String.intercalate "," req.plataformas
            data_agendamento := d } else q := by
  rw [update_post]
  split
  · exact Or.inl rfl
  · rename_i post hfind
    split
    · exact Or.inl rfl
    · split
      · exact Or.inl rfl
      · split
        · exact Or.inl rfl
        · exact Or.inr ⟨post, _, _, hfind, rfl⟩

/-- C2: every post API operation preserves the invariant that the
published time is present iff the status is `published`; in particular a
freshly created post has status `'agendado'` (scheduled) and no published
time. -/
theorem api_ops_preserve_published_time_inv :
    (∀ req fromiso token newId commit_ok fs db p,
      (create_post req fromiso token newId commit_ok fs db).1 = CreateResult.created p →
      p.status = "agendado" ∧ p.data_publicacao = none) ∧
    (∀ req fromiso token newId commit_ok fs db,
      (∀ p ∈ db, postInv p) →
      ∀ q ∈ (create_post req fromiso token newId commit_ok fs db).2.2, postInv q) ∧
    (∀ id req fromiso token fs db,
      (∀ p ∈ db, postInv p) →
      ∀ q ∈ (update_post id req fromiso token fs db).2.2, postInv q) ∧
    (∀ id fs db,
      (∀ p ∈ db, postInv p) →
      ∀ q ∈ (delete_post id fs db).2.2, postInv q) := by
  refine ⟨?_, ?_, ?_, ?_⟩
  · intro req fromiso token newId commit_ok fs db p h
    rw [create_post] at h
    split at h
    · simp at h
    · split at h
      · simp at h
      · split at h
        · simp at h
        · split at h
          · rw [show (CreateResult.created _, _, _).1
                = CreateResult.created (mkCreatedPost _ _ _ _) from rfl] at h
            cases CreateResult.created.inj h
            exact ⟨rfl, rfl⟩
          · simp at h
  · intro req fromiso token newId commit_ok fs db hinv q hq
    rcases create_post_db_cases req fromiso token newId commit_ok fs db with heq | ⟨d, url, heq⟩
    · rw [heq] at hq
      exact hinv q hq
    · rw [heq] at hq
      rcases List.mem_append.mp hq with h | h
      · exact hinv q h
      · rw [List.mem_singleton.mp h]
        simp [postInv, mkCreatedPost, STATUS_PUBLISHED]
  · intro id req fromiso token fs db hinv q hq
    rcases update_post_db_cases id req fromiso token fs db with heq | ⟨post, d, url, hfind, heq⟩
    · rw [heq] at hq
      exact hinv q hq
    · rw [heq] at hq
      rcases List.mem_map.mp hq with ⟨x, hx, hfx⟩
      by_cases hb : (x.id == id) = true
      · rw [if_pos hb] at hfx
        rw [← hfx]
        exact hinv post (List.mem_of_find?_eq_some hfind)
      · rw [if_neg hb] at hfx
        rw [← hfx]
        exact hinv x hx
  · intro id fs db hinv q hq
    rw [delete_post] at hq
    split at hq
    · exact hinv q hq
    · exact hinv q (List.mem_of_mem_filter hq)

/-- Concrete creation request used to witness claim C2. -/
def c2Req : PostRequest :=
  { legenda := some "Launch", tipo_midia := some "imagem",
    plataformas := ["instagram"], data_agendamento := some "2024-01-01T00:00:00",
    url_midia := none, media_file := none }

/-- C2 witness: the post created by a concrete successful request has
status `'agendado'` and no published time. -/
theorem api_ops_preserve_published_time_inv_witness :
    (mkCreatedPost c2Req 1 0 none).status = "agendado" ∧
      (mkCreatedPost c2Req 1 0 none).data_publicacao = none :=
  api_ops_preserve_published_time_inv.1 c2Req (fun _ => some 0) "tok" 1 true [] []
    (mkCreatedPost c2Req 1 0 none) rfl

/-! ## Claim C3: no rollback of a saved file on insert failure -/

/-- On an accepted filename, `save_file` writes the file and returns the
category-relative path. -/
theorem save_file_success_eq (fn folder token : String) (fs : FS)
    (hallow : allowed_file fn = true) :
    save_file fn folder token fs =
      (some (basename folder ++ "/" ++ (token ++ "_" ++ secure_filename fn)),
        path_join folder (token ++ "_" ++ secure_filename fn) :: fs) := by
  rw [save_file, save_file_guard_eq, hallow, if_pos rfl]

/-- With a non-empty accepted upload, the media-resolution step of
`create_post` saves the file and resolves to its relative path. -/
theorem resolve_create_media_file_eq (req : PostRequest) (token : String) (fs : FS)
    (fn : String) (hfile : req.media_file = some fn) (hallow : allowed_file fn = true) :
    resolve_create_media req token fs =
      (some (some (basename UPLOAD_FOLDER_POSTS ++ "/" ++ (token ++ "_" ++ secure_filename fn))),
        path_join UPLOAD_FOLDER_POSTS (token ++ "_" ++ secure_filename fn) :: fs) := by
  simp only [resolve_create_media, hfile]
  rw [if_pos (allowed_file_nonempty hallow),
    save_file_success_eq fn UPLOAD_FOLDER_POSTS token fs hallow]

/-- Concrete creation request with an uploaded file, used for claim C3. -/
def c3Req : PostRequest :=
  { legenda := some "Launch", tipo_midia := some "imagem",
    plataformas := ["instagram"], data_agendamento := some "2024-01-01T00:00:00",
    url_midia := none, media_file := some "pic.png" }

/-- C3 counterexample: at a concrete request whose commit fails after the
media file was saved, the saved file is NOT deleted — it is still on disk
when the 5xx is returned, refuting the claimed rollback. -/
theorem create_no_rollback_counterexample :
    (create_post c3Req (fun _ => some 0) "tok" 1 false [] []).1 = CreateResult.serverError ∧
    (create_post c3Req (fun _ => some 0) "tok" 1 false [] []).2.1 = ["uploads/posts/tok_pic.png"] :=
  ⟨rfl, rfl⟩

/-- C3 (amended): if the database insert fails after the media file was
saved, `create_post` surfaces the error (5xx) with NO cleanup: the saved
file remains on disk and the database is unchanged. -/
theorem create_insert_failure_leaves_file (req : PostRequest)
    (fromiso : String → Option Time) (token : String) (newId : Nat)
    (fs : FS) (db : List Post) (fn : String) (d : Time)
    (hfields : required_fields_ok req = true)
    (hiso : fromiso (req.data_agendamento.getD "") = some d)
    (hfile : req.media_file = some fn)
    (hallow : allowed_file fn = true) :
    (create_post req fromiso token newId false fs db).1 = CreateResult.serverError ∧
    path_join UPLOAD_FOLDER_POSTS (token ++ "_" ++ secure_filename fn)
      ∈ (create_post req fromiso token newId false fs db).2.1 ∧
    (create_post req fromiso token newId false fs db).2.2 = db := by
  have hmain : create_post req fromiso token newId false fs db =
      (CreateResult.serverError,
        path_join UPLOAD_FOLDER_POSTS (token ++ "_" ++ secure_filename fn) :: fs, db) := by
    rw [create_post, hfields]
    simp only [Bool.not_true, Bool.false_eq_true, if_false, hiso,
      resolve_create_media_file_eq req token fs fn hfile hallow]
  exact ⟨by rw [hmain], by rw [hmain]; exact List.mem_cons_self _ _, by rw [hmain]⟩

/-- C3 witness: the amended theorem at a concrete failing commit. -/
theorem create_insert_failure_leaves_file_witness :
    (create_post c3Req (fun _ => some 0) "tok2" 2 false ["other"] []).1
      = CreateResult.serverError ∧
    path_join UPLOAD_FOLDER_POSTS ("tok2" ++ "_" ++ secure_filename "pic.png")
      ∈ (create_post c3Req (fun _ => some 0) "tok2" 2 false ["other"] []).2.1 :=
  ⟨(create_insert_failure_leaves_file c3Req (fun _ => some 0) "tok2" 2 ["other"] []
      "pic.png" 0 rfl rfl rfl rfl).1,
    (create_insert_failure_leaves_file c3Req (fun _ => some 0) "tok2" 2 ["other"] []
      "pic.png" 0 rfl rfl rfl rfl).2.1⟩

/-! ## Claim C4: ordering of the full post listing -/

/-- Whether a rendered listing is sorted by scheduled time, descending. -/
def isSortedDesc : List PostJson → Bool
  | [] => true
  | [_] => true
  | a :: b :: rest =>
    decide (b.data_agendamento ≤ a.data_agendamento) && isSortedDesc (b :: rest)

/-- Stored post with the earlier schedule, used for claim C4. -/
def c4PostA : Post :=
  { id := 1, legenda := "a", tipo_midia := "imagem", url_midia := none,
    plataformas := "instagram", data_agendamento := 0, status := "agendado",
    data_publicacao := none }

/-- Stored post with the later schedule, used for claim C4. -/
def c4PostB : Post :=
  { id := 2, legenda := "b", tipo_midia := "imagem", url_midia := none,
    plataformas := "instagram", data_agendamento := 1, status := "agendado",
    data_publicacao := none }

/-- C4 counterexample: for the stored set [post at time 0, post at time 1]
the listing comes back in storage order (times [0, 1]), which is not
ordered by scheduled time descending. -/
theorem get_posts_unordered_counterexample :
    (get_posts [c4PostA, c4PostB]).map PostJson.data_agendamento = [0, 1] ∧
    isSortedDesc (get_posts [c4PostA, c4PostB]) = false :=
  ⟨rfl, rfl⟩

/-- C4 (amended): the full post listing returns every stored post, rendered
in storage (insertion) order — `Post.query.all()` applies no ordering by
scheduled time. -/
theorem get_posts_returns_all_in_storage_order (db : List Post) :
    get_posts db = db.map Post.to_dict ∧
    (get_posts db).length = db.length ∧
    ∀ p ∈ db, Post.to_dict p ∈ get_posts db := by
  refine ⟨rfl, by simp [get_posts], fun p hp => List.mem_map_of_mem Post.to_dict hp⟩

/-- C4 witness: every concrete stored post appears in the listing. -/
theorem get_posts_returns_all_in_storage_order_witness :
    Post.to_dict c4PostA ∈ get_posts [c4PostA, c4PostB] :=
  (get_posts_returns_all_in_storage_order [c4PostA, c4PostB]).2.2 c4PostA
    (List.mem_cons_self c4PostA [c4PostB])

/-! ## Claim C7: create-then-delete leaves no file at the media path -/

theorem posts_slash_data (uf : String) :
    (("posts" ++ "/" ++ uf) : String).data
      = 'p' :: 'o' :: 's' :: 't' :: 's' :: '/' :: uf.data := rfl

/-- A `posts/...` relative path never starts with `http`. -/
theorem pyStartsWith_http_posts (uf : String) :
    pyStartsWith "http" ("posts" ++ "/" ++ uf) = false := rfl

theorem posts_slash_ne_empty (uf : String) :
    (("posts" ++ "/" ++ uf) != "") = true := by
  refine string_bne_empty ?_
  rw [posts_slash_data]
  simp

/-- Splitting a two-component slash path recovers the components. -/
theorem pySplit_slash_append (a b : String)
    (ha : pyMem '/' a = false) (hb : pyMem '/' b = false) :
    pySplit '/' (a ++ "/" ++ b) = [a, b] := by
  have hdata : ((a ++ "/" ++ b) : String).data = a.data ++ '/' :: b.data := by
    rw [String.data_append, String.data_append]
    simp
  rw [pySplit, hdata,
    splitChar_append_cons '/' a.data b.data ((pyMem_false_iff '/' a).mp ha),
    splitChar_of_not_mem '/' b.data ((pyMem_false_iff '/' b).mp hb)]
  rfl

theorem delete_file_resolved_some (fp : String) (fs : FS) :
    delete_file_resolved (some fp) fs
      = if fp ∈ fs then (true, fs.erase fp) else (false, fs) := rfl

/-- A unique filename built from a slash-free token is slash-free. -/
theorem unique_filename_no_slash (token fn : String)
    (htok : pyMem '/' token = false) :
    pyMem '/' (token ++ "_" ++ secure_filename fn) = false := by
  rw [pyMem_false_iff]
  intro hmem
  rw [String.data_append, String.data_append] at hmem
  rcases List.mem_append.mp hmem with h | h
  · rcases List.mem_append.mp h with h1 | h1
    · exact (pyMem_false_iff '/' token).mp htok h1
    · simp at h1
  · exact secure_filename_no_slash fn h

/-- Deleting a freshly written `posts/...` file removes exactly it. -/
theorem delete_file_posts_fresh (uf : String) (fs : FS)
    (hnosep : pyMem '/' uf = false) :
    delete_file ("posts" ++ "/" ++ uf) (path_join UPLOAD_FOLDER_POSTS uf :: fs)
      = (true, fs) := by
  rw [delete_file, if_pos (posts_slash_ne_empty uf),
    pySplit_slash_append "posts" uf rfl hnosep,
    if_neg (show ¬((["posts", uf] : List String).length < 2) by simp),
    resolve_delete_path,
    if_pos (show (["posts", uf] : List String).getD 0 "" = "posts" from rfl),
    show ((["posts", uf] : List String).getD 1 "") = uf from rfl,
    delete_file_resolved_some,
    if_pos (List.mem_cons_self (path_join UPLOAD_FOLDER_POSTS uf) fs),
    List.erase_cons_head]

/-- A successful `create_post` with an accepted upload: the row is
appended with the relative media path and the file is on disk. -/
theorem create_post_file_success_eq (req : PostRequest)
    (fromiso : String → Option Time) (token : String) (newId : Nat)
    (fs : FS) (db : List Post) (fn : String) (d : Time)
    (hfields : required_fields_ok req = true)
    (hiso : fromiso (req.data_agendamento.getD "") = some d)
    (hfile : req.media_file = some fn)
    (hallow : allowed_file fn = true) :
    create_post req fromiso token newId true fs db =
      (CreateResult.created (mkCreatedPost req newId d
          (some (basename UPLOAD_FOLDER_POSTS ++ "/" ++ (token ++ "_" ++ secure_filename fn)))),
        path_join UPLOAD_FOLDER_POSTS (token ++ "_" ++ secure_filename fn) :: fs,
        db ++ [mkCreatedPost req newId d
          (some (basename UPLOAD_FOLDER_POSTS ++ "/" ++ (token ++ "_" ++ secure_filename fn)))]) := by
  rw [create_post, hfields]
  simp only [Bool.not_true, Bool.false_eq_true, if_false, hiso,
    resolve_create_media_file_eq req token fs fn hfile hallow,
    eq_self_iff_true, if_true]

/-- `delete_post` on a found row: delete its local media, drop the row. -/
theorem delete_post_found_eq (id : Nat) (fs : FS) (db : List Post) (post : Post)
    (hfind : db.find? (fun p => p.id == id) = some post) :
    delete_post id fs db =
      (DeleteResult.ok, delete_local_media post.url_midia fs,
        db.filter fun q => !(q.id == id)) := by
  rw [delete_post, hfind]

/-- C7: for every post created with a locally uploaded media file (fresh
token, fresh id), the file is on disk after creation, and deleting that
post through the API removes it — the filesystem returns to its prior
state and no file remains at the path returned at creation. -/
theorem post_create_delete_roundtrip (req : PostRequest)
    (fromiso : String → Option Time) (token : String) (newId : Nat)
    (fs : FS) (db : List Post) (fn : String) (d : Time)
    (hfields : required_fields_ok req = true)
    (hiso : fromiso (req.data_agendamento.getD "") = some d)
    (hfile : req.media_file = some fn)
    (hallow : allowed_file fn = true)
    (htok : pyMem '/' token = false)
    (hfresh : ∀ q ∈ db, q.id ≠ newId)
    (hdisk : path_join UPLOAD_FOLDER_POSTS (token ++ "_" ++ secure_filename fn) ∉ fs) :
    path_join UPLOAD_FOLDER_POSTS (token ++ "_" ++ secure_filename fn)
      ∈ (create_post req fromiso token newId true fs db).2.1 ∧
    (delete_post newId (create_post req fromiso token newId true fs db).2.1
        (create_post req fromiso token newId true fs db).2.2).2.1 = fs ∧
    path_join UPLOAD_FOLDER_POSTS (token ++ "_" ++ secure_filename fn)
      ∉ (delete_post newId (create_post req fromiso token newId true fs db).2.1
        (create_post req fromiso token newId true fs db).2.2).2.1 := by
  have hcreate := create_post_file_success_eq req fromiso token newId fs db fn d
    hfields hiso hfile hallow
  rw [show basename UPLOAD_FOLDER_POSTS = "posts" from rfl] at hcreate
  have hfind : (db ++ [mkCreatedPost req newId d
        (some ("posts" ++ "/" ++ (token ++ "_" ++ secure_filename fn)))]).find?
        (fun p => p.id == newId)
      = some (mkCreatedPost req newId d
        (some ("posts" ++ "/" ++ (token ++ "_" ++ secure_filename fn)))) := by
    rw [find?_append_of_none _ db _
      (fun x hx => beq_eq_false_iff_ne.mpr (hfresh x hx))]
    exact List.find?_cons_of_pos _ (beq_self_eq_true newId)
  have hdel := delete_post_found_eq newId
    (path_join UPLOAD_FOLDER_POSTS (token ++ "_" ++ secure_filename fn) :: fs)
    (db ++ [mkCreatedPost req newId d
      (some ("posts" ++ "/" ++ (token ++ "_" ++ secure_filename fn)))])
    (mkCreatedPost req newId d
      (some ("posts" ++ "/" ++ (token ++ "_" ++ secure_filename fn)))) hfind
  have hdlm : delete_local_media
      (some ("posts" ++ "/" ++ (token ++ "_" ++ secure_filename fn)))
      (path_join UPLOAD_FOLDER_POSTS (token ++ "_" ++ secure_filename fn) :: fs) = fs := by
    rw [delete_local_media,
      if_pos (show (truthy (some ("posts" ++ "/" ++ (token ++ "_" ++ secure_filename fn))) &&
          !pyStartsWith "http"
            ((some ("posts" ++ "/" ++ (token ++ "_" ++ secure_filename fn))).getD "")) = true by
        rw [show truthy (some ("posts" ++ "/" ++ (token ++ "_" ++ secure_filename fn)))
            = (("posts" ++ "/" ++ (token ++ "_" ++ secure_filename fn)) != "") from rfl,
          posts_slash_ne_empty,
          show ((some ("posts" ++ "/" ++ (token ++ "_" ++ secure_filename fn))).getD "")
            = ("posts" ++ "/" ++ (token ++ "_" ++ secure_filename fn)) from rfl,
          pyStartsWith_http_posts]
        rfl)]
    rw [show ((some ("posts" ++ "/" ++ (token ++ "_" ++ secure_filename fn))).getD "")
        = ("posts" ++ "/" ++ (token ++ "_" ++ secure_filename fn)) from rfl,
      delete_file_posts_fresh (token ++ "_" ++ secure_filename fn) fs
        (unique_filename_no_slash token fn htok)]
  have hfinal : (delete_post newId
      (path_join UPLOAD_FOLDER_POSTS (token ++ "_" ++ secure_filename fn) :: fs)
      (db ++ [mkCreatedPost req newId d
        (some ("posts" ++ "/" ++ (token ++ "_" ++ secure_filename fn)))])).2.1 = fs := by
    rw [hdel]
    exact hdlm
  refine ⟨?_, ?_, ?_⟩
  · rw [hcreate]
    exact List.mem_cons_self _ _
  · rw [hcreate]
    exact hfinal
  · rw [hcreate]
    intro hmem
    rw [hfinal] at hmem
    exact hdisk hmem

/-- Concrete creation request with an uploaded file, used for claim C7. -/
def c7Req : PostRequest :=
  { legenda := some "Launch", tipo_midia := some "imagem",
    plataformas := ["instagram"], data_agendamento := some "2024-01-01T00:00:00",
    url_midia := none, media_file := some "pic.png" }

/-- C7 witness: a concrete create-then-delete round trip on an empty
store leaves the filesystem empty. -/
theorem post_create_delete_roundtrip_witness :
    path_join UPLOAD_FOLDER_POSTS ("tok" ++ "_" ++ secure_filename "pic.png")
      ∈ (create_post c7Req (fun _ => some 0) "tok" 1 true [] []).2.1 ∧
    (delete_post 1 (create_post c7Req (fun _ => some 0) "tok" 1 true [] []).2.1
        (create_post c7Req (fun _ => some 0) "tok" 1 true [] []).2.2).2.1 = [] ∧
    path_join UPLOAD_FOLDER_POSTS ("tok" ++ "_" ++ secure_filename "pic.png")
      ∉ (delete_post 1 (create_post c7Req (fun _ => some 0) "tok" 1 true [] []).2.1
        (create_post c7Req (fun _ => some 0) "tok" 1 true [] []).2.2).2.1 :=
  post_create_delete_roundtrip c7Req (fun _ => some 0) "tok" 1 [] [] "pic.png" 0
    rfl rfl rfl rfl rfl (fun q hq => absurd hq (List.not_mem_nil q))
    (List.not_mem_nil _)

/-! ## Claim C8: `update_post` does not accept partial field sets -/

/-- The row produced by a successful `update_post` that leaves the media
reference untouched. -/
def applyUpdate (post : Post) (req : PostRequest) (d : Time) : Post :=
  { post with
    legenda := req.legenda.getD ""
    tipo_midia := req.tipo_midia.getD ""
    plataformas := String.intercalate "," req.plataformas
    data_agendamento := d }

/-- Without a non-empty upload and without a `url_midia` form field, the
media-resolution step of `update_post` keeps the existing media and
touches no file. -/
theorem resolve_update_media_skip_eq (req : PostRequest) (existing : Option String)
    (token : String) (fs : FS)
    (hnofile : req.media_file.getD "" = "")
    (hnourl : req.url_midia = none) :
    resolve_update_media req existing token fs = (some existing, fs) := by
  rw [resolve_update_media, hnofile,
    if_neg (by decide : ¬((("" : String) != "") = true)), hnourl]
  rfl

/-- A successful `update_post` with no media inputs: every other supplied
field is assigned, the media reference is kept, the filesystem untouched. -/
theorem update_post_no_media_eq (id : Nat) (req : PostRequest)
    (fromiso : String → Option Time) (token : String) (fs : FS) (db : List Post)
    (post : Post) (d : Time)
    (hfind : db.find? (fun p => p.id == id) = some post)
    (hfields : required_fields_ok req = true)
    (hiso : fromiso (req.data_agendamento.getD "") = some d)
    (hnofile : req.media_file.getD "" = "")
    (hnourl : req.url_midia = none) :
    update_post id req fromiso token fs db
      = (UpdateResult.ok (applyUpdate post req d), fs,
          db.map fun q => if q.id == id then applyUpdate post req d else q) := by
  simp only [update_post, hfind, hfields, Bool.not_true, Bool.false_eq_true, if_false,
    hiso, resolve_update_media_skip_eq req post.url_midia token fs hnofile hnourl]
  rfl

/-- Stored post used for claim C8. -/
def c8Post : Post :=
  { id := 1, legenda := "old", tipo_midia := "imagem", url_midia := none,
    plataformas := "instagram", data_agendamento := 0, status := "agendado",
    data_publicacao := none }

/-- Update request supplying only the caption, used for claim C8. -/
def c8PartialReq : PostRequest :=
  { legenda := some "Nova legenda", tipo_midia := none, plataformas := [],
    data_agendamento := none, url_midia := none, media_file := none }

/-- C8 counterexample: an update of an existing post that supplies only a
subset of the editable fields (just the caption) does not succeed — it is
rejected with a 400 and nothing is changed, refuting the claimed partial
update. -/
theorem update_partial_fields_counterexample :
    update_post 1 c8PartialReq (fun _ => some 0) "tok" [] [c8Post]
      = (UpdateResult.badRequest "Dados obrigatórios faltando", [], [c8Post]) := rfl

/-- C8 (amended): `update_post` fails with `notFound` when the id matches
no row; it rejects with a 400 and changes nothing unless ALL of caption,
media kind, platforms and schedule time are supplied (only the media
reference is optional); when all are supplied (and no media inputs are
given) the update succeeds atomically, assigning exactly the supplied
fields. -/
theorem update_post_requires_all_fields :
    (∀ id req fromiso token fs db,
      db.find? (fun p => Post.id p == id) = none →
      update_post id req fromiso token fs db = (UpdateResult.notFound, fs, db)) ∧
    (∀ id req fromiso token fs db post,
      db.find? (fun p => Post.id p == id) = some post →
      required_fields_ok req = false →
      update_post id req fromiso token fs db
        = (UpdateResult.badRequest "Dados obrigatórios faltando", fs, db)) ∧
    (∀ id req fromiso token fs db post d,
      db.find? (fun p => Post.id p == id) = some post →
      required_fields_ok req = true →
      fromiso (req.data_agendamento.getD "") = some d →
      req.media_file = none → req.url_midia = none →
      update_post id req fromiso token fs db
        = (UpdateResult.ok (applyUpdate post req d), fs,
            db.map fun q => if q.id == id then applyUpdate post req d else q)) := by
  refine ⟨?_, ?_, ?_⟩
  · intro id req fromiso token fs db hfind
    simp only [update_post, hfind]
  · intro id req fromiso token fs db post hfind hreq
    simp only [update_post, hfind, hreq, Bool.not_false, if_true]
  · intro id req fromiso token fs db post d hfind hfields hiso hmf hurl
    exact update_post_no_media_eq id req fromiso token fs db post d hfind hfields hiso
      (by rw [hmf]; rfl) hurl

/-- Full update request used to witness claim C8. -/
def c8FullReq : PostRequest :=
  { legenda := some "Nova", tipo_midia := some "video", plataformas := ["whatsapp"],
    data_agendamento := some "2024-02-02T00:00:00", url_midia := none,
    media_file := none }

/-- C8 witness: a concrete full update succeeds. -/
theorem update_post_requires_all_fields_witness :
    update_post 1 c8FullReq (fun _ => some 9) "tok" [] [c8Post]
      = (UpdateResult.ok (applyUpdate c8Post c8FullReq 9), [],
          List.map (fun q => if Post.id q == 1 then applyUpdate c8Post c8FullReq 9 else q)
            [c8Post]) :=
  update_post_requires_all_fields.2.2 1 c8FullReq (fun _ => some 9) "tok" [] [c8Post]
    c8Post 9 rfl rfl rfl rfl rfl

/-! ## Claim C9: an empty upload filename makes `url_midia` be ignored -/

/-- With a `media_file` part whose filename is empty, the creation media
step does nothing: the `elif` on the `url_midia` form field is never
reached. -/
theorem resolve_create_media_empty_file_eq (req : PostRequest) (token : String)
    (fs : FS) (hfile : req.media_file = some "") :
    resolve_create_media req token fs = (some none, fs) := by
  simp only [resolve_create_media, hfile]
  rfl

/-- C9: if the creation request has a `media_file` part whose filename is
the empty string, the post is created with no media reference and the
filesystem is untouched — whatever the `url_midia` form field holds. -/
theorem create_empty_filename_ignores_url_field (req : PostRequest)
    (fromiso : String → Option Time) (token : String) (newId : Nat)
    (fs : FS) (db : List Post) (d : Time)
    (hfields : required_fields_ok req = true)
    (hiso : fromiso (req.data_agendamento.getD "") = some d)
    (hfile : req.media_file = some "") :
    create_post req fromiso token newId true fs db
      = (CreateResult.created (mkCreatedPost req newId d none), fs,
          db ++ [mkCreatedPost req newId d none]) ∧
    (mkCreatedPost req newId d none).url_midia = none := by
  refine ⟨?_, rfl⟩
  rw [create_post, hfields]
  simp only [Bool.not_true, Bool.false_eq_true, if_false, hiso,
    resolve_create_media_empty_file_eq req token fs hfile, eq_self_iff_true, if_true]

/-- Creation request with an empty upload filename and a non-empty
`url_midia` form field, used for claim C9. -/
def c9Req : PostRequest :=
  { legenda := some "Launch", tipo_midia := some "imagem",
    plataformas := ["instagram"], data_agendamento := some "2024-01-01T00:00:00",
    url_midia := some "http://cdn.example/pic.png", media_file := some "" }

/-- C9 witness: even with a non-empty `url_midia` form field, the created
post has no media reference. -/
theorem create_empty_filename_ignores_url_field_witness :
    create_post c9Req (fun _ => some 0) "tok" 1 true [] []
      = (CreateResult.created (mkCreatedPost c9Req 1 0 none), [],
          [mkCreatedPost c9Req 1 0 none]) ∧
    (mkCreatedPost c9Req 1 0 none).url_midia = none :=
  create_empty_filename_ignores_url_field c9Req (fun _ => some 0) "tok" 1 [] [] 0
    rfl rfl rfl

/-! ## Claim C10: updates without media inputs leave the media alone -/

/-- C10: an update request with neither a non-empty `media_file` part nor a
`url_midia` form field leaves the post's media reference and its stored
file untouched (the filesystem is returned unchanged), while the supplied
caption, media kind, platforms and schedule time are assigned. -/
theorem update_without_media_inputs_frame (id : Nat) (req : PostRequest)
    (fromiso : String → Option Time) (token : String) (fs : FS) (db : List Post)
    (post : Post) (d : Time)
    (hfind : db.find? (fun p => Post.id p == id) = some post)
    (hfields : required_fields_ok req = true)
    (hiso : fromiso (req.data_agendamento.getD "") = some d)
    (hnofile : req.media_file = none ∨ req.media_file = some "")
    (hnourl : req.url_midia = none) :
    update_post id req fromiso token fs db
      = (UpdateResult.ok (applyUpdate post req d), fs,
          db.map fun q => if q.id == id then applyUpdate post req d else q) ∧
    (applyUpdate post req d).url_midia = post.url_midia ∧
    (applyUpdate post req d).status = post.status ∧
    (applyUpdate post req d).data_publicacao = post.data_publicacao ∧
    (applyUpdate post req d).legenda = req.legenda.getD "" ∧
    (applyUpdate post req d).tipo_midia = req.tipo_midia.getD "" ∧
    (applyUpdate post req d).plataformas = String.intercalate "," req.plataformas ∧
    (applyUpdate post req d).data_agendamento = d := by
  have hgd : req.media_file.getD "" = "" := by
    rcases hnofile with h | h <;> rw [h] <;> rfl
  exact ⟨update_post_no_media_eq id req fromiso token fs db post d hfind hfields hiso
    hgd hnourl, rfl, rfl, rfl, rfl, rfl, rfl, rfl⟩

/-- Stored post with a local media file, used for claim C10. -/
def c10Post : Post :=
  { id := 1, legenda := "old", tipo_midia := "imagem",
    url_midia := some "posts/old.png", plataformas := "instagram",
    data_agendamento := 0, status := "agendado", data_publicacao := none }

/-- Update request with no media inputs, used for claim C10. -/
def c10Req : PostRequest :=
  { legenda := some "Nova", tipo_midia := some "video", plataformas := ["whatsapp"],
    data_agendamento := some "2024-03-03T00:00:00", url_midia := none,
    media_file := none }

/-- C10 witness: a concrete no-media update keeps the stored file on disk
and the media reference on the row. -/
theorem update_without_media_inputs_frame_witness :
    update_post 1 c10Req (fun _ => some 3) "tok" ["uploads/posts/old.png"] [c10Post]
      = (UpdateResult.ok (applyUpdate c10Post c10Req 3), ["uploads/posts/old.png"],
          List.map (fun q => if Post.id q == 1 then applyUpdate c10Post c10Req 3 else q)
            [c10Post]) ∧
    (applyUpdate c10Post c10Req 3).url_midia = some "posts/old.png" :=
  ⟨(update_without_media_inputs_frame 1 c10Req (fun _ => some 3) "tok"
      ["uploads/posts/old.png"] [c10Post] c10Post 3 rfl rfl rfl (Or.inl rfl) rfl).1,
    (update_without_media_inputs_frame 1 c10Req (fun _ => some 3) "tok"
      ["uploads/posts/old.png"] [c10Post] c10Post 3 rfl rfl rfl (Or.inl rfl) rfl).2.1⟩
